import Mathlib

/-!
Shallow embedding of the RedHatInsights/kcp sources:

* `pkg/admission/customadmission/mutating_plugin.go`, which contains two
  concatenated variants of the `CustomAdmission.Admit` handler: an
  entitlement-based one (quota limits read from
  `entitlement.Spec.QuotaItems[0].Limits`, counters
  `aspianHACBSUsedQuota`/`bspianAppStudioUsedQuota` starting at 0) and a
  per-object-name one (object names `hacbs`/`appstudio`/`data.my.domain`,
  counters `aspianHACBSBindQuota`/`bspainAppStudioBindQuota` starting at 5);
* the third `Admit` variant embedded in
  `docs/content/en/main/concepts/syncer.md` (per-organization counters
  `aspianHACBSQuota`/`bspainAppStudioQuota` starting at 1);
* the e2e scheduling test
  `test/e2e/reconciler/scheduling/controller_test.go`, which fixes the
  literal label conventions for sync intent and downstream provenance.

The Go package-level counter variables become explicit state records
threaded through each `Admit` function; the returned `error` becomes an
`Option AdmitError` (or `EntOutcome`, which also has a branch for the Go
panic on an out-of-range index).  The scheduling/sync controllers are not
part of the sources, only their e2e test is; those parts are modelled from
the specification and marked as such in their doc comments.
-/

/-- Admission attributes, the projection of `admission.Attributes` that the
three `Admit` variants read: `GetSubresource()`, `GetKind().Kind`, the
object's `GetName()`, `GetUserInfo()` (name and groups), and whether
`GetObject()` is a `metav1.Object`. -/
structure Attributes where
  subresource : String
  kind : String
  objectName : String
  userName : String
  groups : List String
  objectIsMetaV1 : Bool
deriving DecidableEq

/-- The distinguishable error returns of the `Admit` variants. -/
inductive AdmitError where
  | typeMismatch
  | quotaExceeded
  | noEntitlement
  | clusterNameErr
deriving DecidableEq

/-- `isPresentInArray` from `mutating_plugin.go`: linear scan for an exact
string match. -/
def isPresentInArray (input : String) : List String → Bool
  | [] => false
  | str :: rest => if input = str then true else isPresentInArray input rest

/-- `strings.HasPrefix`, at the character-list level. -/
def goHasPrefix : List Char → List Char → Bool
  | [], _ => true
  | _ :: _, [] => false
  | p :: ps, c :: cs => p = c && goHasPrefix ps cs

/-- `getTenantId` from the entitlement-based half of `mutating_plugin.go`:
the first group that `strings.HasPrefix(group, "org/")` accepts, with its
first four characters (`group[4:]`) stripped; otherwise the empty
string. -/
def getTenantId : List String → String
  | [] => ""
  | g :: rest =>
    if goHasPrefix "org/".toList g.toList then ⟨g.toList.drop 4⟩ else getTenantId rest

/-- `strconv.Atoi` with its error discarded, as both call sites in the
entitlement-based `Admit` do (`configuredLimit, _ := strconv.Atoi(...)`):
an optional sign followed by one or more digits parses to its value, and
every other string yields 0 (the value Go returns alongside the ignored
error). -/
def digitsToNat (cs : List Char) : Nat :=
  cs.foldl (fun acc c => acc * 10 + (c.toNat - 48)) 0

def goAtoi (str : String) : Int :=
  match str.toList with
  | [] => 0
  | c :: cs =>
    if c = '-' then
      if cs ≠ [] ∧ cs.all Char.isDigit then -(digitsToNat cs : Int) else 0
    else if c = '+' then
      if cs ≠ [] ∧ cs.all Char.isDigit then (digitsToNat cs : Int) else 0
    else
      if (c :: cs).all Char.isDigit then (digitsToNat (c :: cs) : Int) else 0

/-- `QuotaItem` of the `Entitlement` spec: the `Limits` field is a string,
parsed with `strconv.Atoi` at the use site. -/
structure QuotaItem where
  limits : String
deriving DecidableEq

/-- An `Entitlement` as the entitlement-based `Admit` reads it: only
`Spec.QuotaItems` is consulted. -/
structure Entitlement where
  quotaItems : List QuotaItem
deriving DecidableEq

/-- The package-level counters of the entitlement-based variant:
`var aspianHACBSUsedQuota = 0` and `var bspianAppStudioUsedQuota = 0`. -/
structure EntState where
  aspianHACBSUsedQuota : Int
  bspianAppStudioUsedQuota : Int
deriving DecidableEq

def initEntState : EntState := ⟨0, 0⟩

/-- Outcome of the entitlement-based `Admit`: `ok` is a nil return, `err`
an error return, and `panicIndex` the Go runtime panic raised by
`entitlement.Spec.QuotaItems[0]` on an empty slice. -/
inductive EntOutcome where
  | ok
  | err (e : AdmitError)
  | panicIndex
deriving DecidableEq

/-- The `org/aspian` block of one loop iteration of the entitlement-based
`Admit`: on a `Pipeline` request by a member of `org/aspian`, read
`QuotaItems[0].Limits` (panicking when the slice is empty), admit and
increment while the used counter is below the configured limit, and
otherwise return the quota error.  `Except.error` carries the whole
function's early return. -/
def admitEntAspian (a : Attributes) (ent : Entitlement) (s : EntState) :
    Except (EntOutcome × EntState) EntState :=
  if isPresentInArray "org/aspian" a.groups then
    if a.kind = "Pipeline" then
      match ent.quotaItems with
      | [] => .error (EntOutcome.panicIndex, s)
      | qi :: _ =>
        if s.aspianHACBSUsedQuota < goAtoi qi.limits then
          .ok { s with aspianHACBSUsedQuota := s.aspianHACBSUsedQuota + 1 }
        else .error (EntOutcome.err AdmitError.quotaExceeded, s)
    else .ok s
  else .ok s

/-- The `org/bspian` block of the same loop iteration, for kind `App` and
the `bspianAppStudioUsedQuota` counter. -/
def admitEntBspian (a : Attributes) (ent : Entitlement) (s : EntState) :
    Except (EntOutcome × EntState) EntState :=
  if isPresentInArray "org/bspian" a.groups then
    if a.kind = "App" then
      match ent.quotaItems with
      | [] => .error (EntOutcome.panicIndex, s)
      | qi :: _ =>
        if s.bspianAppStudioUsedQuota < goAtoi qi.limits then
          .ok { s with bspianAppStudioUsedQuota := s.bspianAppStudioUsedQuota + 1 }
        else .error (EntOutcome.err AdmitError.quotaExceeded, s)
    else .ok s
  else .ok s

/-- The `for _, obj := range entitlements` loop: both blocks run in each
iteration; an early return stops the loop with the counters mutated so
far. -/
def admitEntLoop (a : Attributes) : List Entitlement → EntState → EntOutcome × EntState
  | [], s => (EntOutcome.ok, s)
  | ent :: rest, s =>
    match admitEntAspian a ent s with
    | .error r => r
    | .ok s1 =>
      match admitEntBspian a ent s1 with
      | .error r => r
      | .ok s2 => admitEntLoop a rest s2

/-- The entitlement-based `Admit` (first half of `mutating_plugin.go`).
`index` models `entitlementIndexer.ByIndex(ByLogicalCluster, ...)`: the
entitlements stored under a logical-cluster key.  Subresource requests
return nil at once; a non-`metav1.Object` payload is a type error; with a
tenant organization present, the loop above runs over the entitlements of
`"root:" + org`. -/
def admitEnt (index : String → List Entitlement) (a : Attributes) (s : EntState) :
    EntOutcome × EntState :=
  if a.subresource ≠ "" then (EntOutcome.ok, s)
  else if !a.objectIsMetaV1 then (EntOutcome.err AdmitError.typeMismatch, s)
  else
    let org := getTenantId a.groups
    if org ≠ "" then admitEntLoop a (index ("root:" ++ org)) s
    else (EntOutcome.ok, s)

/-- The package-level counters of the per-object-name variant:
`var aspianHACBSBindQuota = 5` and `var bspainAppStudioBindQuota = 5`. -/
structure NameState where
  aspianHACBSBindQuota : Int
  bspainAppStudioBindQuota : Int
deriving DecidableEq

def initNameState : NameState := ⟨5, 5⟩

/-- The per-object-name `Admit` (second half of `mutating_plugin.go`).
`ctxOk` models whether `genericapirequest.ClusterNameFrom(ctx)` succeeds;
its error lands in the shared named return `err` and is only overwritten
when a quota check fails.  Group `aspian` with object name `hacbs` (and
`bspian` with `appstudio`) decrement their counter on every match, deny
when the counter is exactly 0 at entry, and after the error check any
object named `data.my.domain` is rejected. -/
def admitName (ctxOk : Bool) (a : Attributes) (s : NameState) :
    Option AdmitError × NameState :=
  if a.subresource ≠ "" then (none, s)
  else if !a.objectIsMetaV1 then (some AdmitError.typeMismatch, s)
  else
    let err0 : Option AdmitError := if ctxOk then none else some AdmitError.clusterNameErr
    let r1 :=
      if isPresentInArray "aspian" a.groups then
        if a.objectName = "hacbs" then
          ((if s.aspianHACBSBindQuota = 0 then some AdmitError.quotaExceeded else err0),
           { s with aspianHACBSBindQuota := s.aspianHACBSBindQuota - 1 })
        else (err0, s)
      else (err0, s)
    let r2 :=
      if isPresentInArray "bspian" a.groups then
        if a.objectName = "appstudio" then
          ((if r1.2.bspainAppStudioBindQuota = 0 then some AdmitError.quotaExceeded else r1.1),
           { r1.2 with bspainAppStudioBindQuota := r1.2.bspainAppStudioBindQuota - 1 })
        else r1
      else r1
    match r2.1 with
    | some e => (some e, r2.2)
    | none =>
      if a.objectName = "data.my.domain" then (some AdmitError.noEntitlement, r2.2)
      else (none, r2.2)

/-- The package-level counters of the per-organization variant in
`syncer.md`: `var aspianHACBSQuota = 1` and `var bspainAppStudioQuota = 1`. -/
structure OrgState where
  aspianHACBSQuota : Int
  bspainAppStudioQuota : Int
deriving DecidableEq

def initOrgState : OrgState := ⟨1, 1⟩

/-- The per-organization `Admit` from `syncer.md`: group `org/aspian` with
kind `Pipeline` (and `org/bspian` with kind `App`) decrement their counter
on every match and set the quota error exactly when the counter is 0 at
entry; the error variable persists across the two blocks and is returned
at the end. -/
def admitOrg (a : Attributes) (s : OrgState) : Option AdmitError × OrgState :=
  if a.subresource ≠ "" then (none, s)
  else if !a.objectIsMetaV1 then (some AdmitError.typeMismatch, s)
  else
    let r1 :=
      if isPresentInArray "org/aspian" a.groups then
        if a.kind = "Pipeline" then
          ((if s.aspianHACBSQuota = 0 then some AdmitError.quotaExceeded else none),
           { s with aspianHACBSQuota := s.aspianHACBSQuota - 1 })
        else (none, s)
      else (none, s)
    let r2 :=
      if isPresentInArray "org/bspian" a.groups then
        if a.kind = "App" then
          ((if r1.2.bspainAppStudioQuota = 0 then some AdmitError.quotaExceeded else r1.1),
           { r1.2 with bspainAppStudioQuota := r1.2.bspainAppStudioQuota - 1 })
        else r1
      else r1
    r2

/-! ## Label conventions fixed by the e2e scheduling test

`test/e2e/reconciler/scheduling/controller_test.go` creates services with
the label `"state.workload.kcp.dev/" + syncTargetKey: "Sync"` and lists
downstream mirrors with the selector
`"internal.workload.kcp.dev/cluster=" + syncTargetKey`. -/

/-- The label map the test puts on the services it creates. -/
def testServiceLabels (syncTargetKey : String) : List (String × String) :=
  [(String.append "state.workload.kcp.dev/" syncTargetKey, "Sync")]

/-- The downstream list selector the test uses to find the mirrors. -/
def testDownstreamSelector (syncTargetKey : String) : String :=
  String.append "internal.workload.kcp.dev/cluster=" syncTargetKey

/-- The provenance label a downstream mirror carries for its target. -/
def provenanceLabel (syncTargetKey : String) : String × String :=
  ("internal.workload.kcp.dev/cluster", syncTargetKey)

/-- The spec's wording for the sync-intent key: literal pattern
`state.<domain>/<target-key>`. -/
def specStateLabelKey (domain targetKey : String) : String :=
  String.append (String.append (String.append "state." domain) "/") targetKey

/-- The spec's wording for the provenance label:
`internal.<domain>/cluster=<target-key>`, as a key/value pair. -/
def specProvenanceLabel (domain targetKey : String) : String × String :=
  (String.append (String.append "internal." domain) "/cluster", targetKey)

/-- A `key=value` label rendered as a list selector string. -/
def selectorOfLabel (p : String × String) : String :=
  String.append (String.append p.1 "=") p.2

/-! ## Spec-modelled scheduling and sync system

The Location Resolver, Placement Engine and Sync Agent of the spec are not
part of the sources (only their e2e test is), so they are modelled from
the specification text. -/

/-- Modelled from the spec: an `ExecutionTarget` of the Target Registry,
with identity, an explicit readiness condition and label facts for
selector evaluation (the controllers themselves are missing from the
sources). -/
structure ExecutionTarget where
  name : String
  ready : Bool
  labels : List (String × String)
deriving DecidableEq

/-- Modelled from the spec: a `Location`, a named selector over
`ExecutionTarget`s. An empty selector matches every target. -/
structure Location where
  name : String
  selector : List (String × String)
deriving DecidableEq

/-- Modelled from the spec: pure, side-effect-free selector evaluation (a
label predicate over target facts). -/
def selectorMatches (sel : List (String × String)) (t : ExecutionTarget) : Bool :=
  sel.all (fun p => decide (p ∈ t.labels))

/-- Modelled from the spec: the set of ready targets currently matching a
Location's selector. -/
def readyMatching (targets : List ExecutionTarget) (l : Location) : List ExecutionTarget :=
  targets.filter (fun t => t.ready && selectorMatches l.selector t)

/-- Modelled from the spec: Target Registry change events — registration,
an externally computed readiness flip, deregistration. -/
inductive RegistryEvent where
  | register (t : ExecutionTarget)
  | setReady (name : String) (ready : Bool)
  | deregister (name : String)
deriving DecidableEq

/-- Modelled from the spec: how one registry event changes the registry's
target list. -/
def applyEvent (targets : List ExecutionTarget) : RegistryEvent → List ExecutionTarget
  | .register t => targets ++ [t]
  | .setReady n r => targets.map (fun t => if t.name = n then { t with ready := r } else t)
  | .deregister n => targets.filter (fun t => t.name ≠ n)

/-- Modelled from the spec: the Location Resolver's view — the current
registry plus the Location's published `AvailableInstances` status, which
is absent until the first reconcile has run. -/
structure ResolverRun where
  targets : List ExecutionTarget
  status : Option Nat
deriving DecidableEq

/-- Modelled from the spec: on every registry event the resolver
recomputes membership and publishes the count of ready matching targets
(level-triggered recompute from current observed state). -/
def resolverStep (l : Location) (st : ResolverRun) (ev : RegistryEvent) : ResolverRun :=
  let ts := applyEvent st.targets ev
  { targets := ts, status := some (readyMatching ts l).length }

/-- Modelled from the spec: process a whole event sequence from the empty
registry, with no status published before the first event. -/
def resolverRun (l : Location) (evs : List RegistryEvent) : ResolverRun :=
  evs.foldl (resolverStep l) { targets := [], status := none }

/-- Modelled from the spec: an upstream object — source workspace, name,
and labels (among them the per-target sync-intent labels). -/
structure UpstreamObj where
  workspace : String
  name : String
  labels : List (String × String)
deriving DecidableEq

/-- Modelled from the spec: a downstream mirror object, tagged with
provenance (source workspace, name) and carrying the provenance label. -/
structure MirrorObj where
  name : String
  sourceWorkspace : String
  labels : List (String × String)
deriving DecidableEq

/-- Whether an upstream object carries the `Sync` intent for a target key,
using the literal label convention of the e2e test. -/
def hasSyncIntent (k : String) (o : UpstreamObj) : Bool :=
  decide ((String.append "state.workload.kcp.dev/" k, "Sync") ∈ o.labels)

/-- Modelled from the spec: the mirror the Sync Agent materializes for one
upstream object on the target with key `k` — same name, provenance
recorded, and the provenance label appended. -/
def mirrorOf (k : String) (o : UpstreamObj) : MirrorObj :=
  { name := o.name
    sourceWorkspace := o.workspace
    labels := o.labels ++ [provenanceLabel k] }

/-- Modelled from the spec: the Sync Agent for target key `k` mirrors
downstream exactly the upstream objects holding the `Sync` intent for `k`,
one mirror per object. -/
def syncDownstream (k : String) (ups : List UpstreamObj) : List MirrorObj :=
  (ups.filter (hasSyncIntent k)).map (mirrorOf k)

/-- Modelled from the spec: `Placement.status.phase`. -/
inductive PlacementPhase where
  | pending
  | bound
  | unbound
deriving DecidableEq

/-- Modelled from the spec: a bind keeps the Placement `Pending` while the
Location has no available instance and moves it to `Bound` otherwise. -/
def bindPhase (available : Nat) : PlacementPhase :=
  if available = 0 then PlacementPhase.pending else PlacementPhase.bound

/-- Modelled from the spec: a namespace of the bound workspace, tracking
whether the placement annotation has been stamped on it. -/
structure WorkNamespace where
  name : String
  placementAnnotated : Bool
deriving DecidableEq

/-- Modelled from the spec: the namespace placement annotation is written
once the Placement transitions to `Bound`. -/
def stampNamespace (ph : PlacementPhase) (ns : WorkNamespace) : WorkNamespace :=
  match ph with
  | PlacementPhase.bound => { ns with placementAnnotated := true }
  | _ => ns

/-- Modelled from the spec: per-(object, target) sync-intent state of the
label-based state machine. `absent` means no intent key for the target. -/
inductive SyncIntent where
  | absent
  | sync
  | removing
deriving DecidableEq

/-- Modelled from the spec: the observable state of one (object, target)
pair — the intent label value and whether the downstream mirror exists. -/
structure PairState where
  intent : SyncIntent
  mirror : Bool
deriving DecidableEq

/-- Modelled from the spec: the transitions of the label-based state
machine (§4.4/§4.5): the Placement Engine assigns intent `Sync`; the Sync
Agent materializes the mirror; losing the intent moves to `Removing`; the
agent deletes the mirror; and only after the mirror is confirmed gone is
the intent key cleared. -/
inductive SyncStep : PairState → PairState → Prop
  | assign (m : Bool) : SyncStep ⟨SyncIntent.absent, m⟩ ⟨SyncIntent.sync, m⟩
  | materialize : SyncStep ⟨SyncIntent.sync, false⟩ ⟨SyncIntent.sync, true⟩
  | startRemoval (m : Bool) : SyncStep ⟨SyncIntent.sync, m⟩ ⟨SyncIntent.removing, m⟩
  | deleteMirror : SyncStep ⟨SyncIntent.removing, true⟩ ⟨SyncIntent.removing, false⟩
  | confirmAbsent : SyncStep ⟨SyncIntent.removing, false⟩ ⟨SyncIntent.absent, false⟩

/-! ## Theorems for the claims -/

/-- Helper: after any nonempty event sequence, the resolver has published
a status equal to the count of ready matching targets of its current
registry. -/
theorem resolverFold_status (l : Location) (evs : List RegistryEvent) (st : ResolverRun)
    (h : evs ≠ []) :
    (evs.foldl (resolverStep l) st).status =
      some (readyMatching (evs.foldl (resolverStep l) st).targets l).length := by
  induction evs generalizing st with
  | nil => exact absurd rfl h
  | cons e rest ih =>
    cases rest with
    | nil => rfl
    | cons e2 r2 => exact ih (resolverStep l st e) (by simp)

/-- C1: the quota counters are process-wide mutable state that `Admit`
both reads and writes, so `Admit` is not a function of its admission
attributes alone: for the fixed attributes of an `org/aspian` user
creating kind `Pipeline`, the per-organization variant admits at the
initial counter state and denies the identical second call, and the
entitlement-based variant (with a matching entitlement of limit 1) does
the same. -/
theorem C1_admit_not_function_of_attributes :
    ((admitOrg ⟨"", "Pipeline", "x", "u", ["org/aspian"], true⟩ initOrgState).1 = none ∧
     (admitOrg ⟨"", "Pipeline", "x", "u", ["org/aspian"], true⟩
        (admitOrg ⟨"", "Pipeline", "x", "u", ["org/aspian"], true⟩ initOrgState).2).1 =
       some AdmitError.quotaExceeded) ∧
    ((admitEnt (fun c => if c = "root:aspian" then [⟨[⟨"1"⟩]⟩] else [])
        ⟨"", "Pipeline", "x", "u", ["org/aspian"], true⟩ initEntState).1 = EntOutcome.ok ∧
     (admitEnt (fun c => if c = "root:aspian" then [⟨[⟨"1"⟩]⟩] else [])
        ⟨"", "Pipeline", "x", "u", ["org/aspian"], true⟩
        (admitEnt (fun c => if c = "root:aspian" then [⟨[⟨"1"⟩]⟩] else [])
          ⟨"", "Pipeline", "x", "u", ["org/aspian"], true⟩ initEntState).2).1 =
       EntOutcome.err AdmitError.quotaExceeded) := by
  decide

/-- C2: the three `Admit` variants are not extensionally equivalent: on a
create of an object named `data.my.domain` by a user with no org groups,
the per-object-name variant denies (`no entitlement present`) while the
per-organization and entitlement-based variants both admit, each at its
initial counter state. -/
theorem C2_admit_variants_disagree :
    (admitName true ⟨"", "Service", "data.my.domain", "u", [], true⟩ initNameState).1 =
      some AdmitError.noEntitlement ∧
    (admitOrg ⟨"", "Service", "data.my.domain", "u", [], true⟩ initOrgState).1 = none ∧
    (admitEnt (fun _ => []) ⟨"", "Service", "data.my.domain", "u", [], true⟩ initEntState).1 =
      EntOutcome.ok := by
  decide

/-- C3: in both fixed-counter variants, a matching request (`org/aspian`
member creating kind `Pipeline` for the per-organization variant, `aspian`
member creating object `hacbs` for the per-object-name variant) is denied
exactly when the counter is 0 at entry, the counter is decremented even on
denial (so it is negative right after the single denial), the sibling
counter is untouched, and once the counter is negative every further
matching request is admitted again. -/
theorem C3_fixed_counter_deny_iff_zero (a : Attributes) (sO : OrgState) (sN : NameState)
    (hsub : a.subresource = "") (hobj : a.objectIsMetaV1 = true)
    (hgaO : isPresentInArray "org/aspian" a.groups = true) (hk : a.kind = "Pipeline")
    (hgaN : isPresentInArray "aspian" a.groups = true) (hname : a.objectName = "hacbs") :
    ((admitOrg a sO).1 ≠ none ↔ sO.aspianHACBSQuota = 0) ∧
    (admitOrg a sO).2.aspianHACBSQuota = sO.aspianHACBSQuota - 1 ∧
    (admitOrg a sO).2.bspainAppStudioQuota = sO.bspainAppStudioQuota ∧
    (sO.aspianHACBSQuota = 0 → (admitOrg a sO).2.aspianHACBSQuota < 0) ∧
    (sO.aspianHACBSQuota < 0 → (admitOrg a sO).1 = none) ∧
    ((admitName true a sN).1 ≠ none ↔ sN.aspianHACBSBindQuota = 0) ∧
    (admitName true a sN).2.aspianHACBSBindQuota = sN.aspianHACBSBindQuota - 1 ∧
    (admitName true a sN).2.bspainAppStudioBindQuota = sN.bspainAppStudioBindQuota ∧
    (sN.aspianHACBSBindQuota = 0 → (admitName true a sN).2.aspianHACBSBindQuota < 0) ∧
    (sN.aspianHACBSBindQuota < 0 → (admitName true a sN).1 = none) := by
  by_cases hO : sO.aspianHACBSQuota = 0 <;> by_cases hN : sN.aspianHACBSBindQuota = 0 <;>
    simp [admitOrg, admitName, hsub, hobj, hgaO, hgaN, hk, hname, hO, hN]

/-- C3 witness: concrete matching request at counters 0, exercising the
denial, the decrement to −1, and the re-admission at a negative counter. -/
theorem C3_witness :
    (((admitOrg ⟨"", "Pipeline", "hacbs", "u", ["org/aspian", "aspian"], true⟩ ⟨0, 7⟩).1 ≠ none ↔
        (0 : Int) = 0) ∧
     (admitOrg ⟨"", "Pipeline", "hacbs", "u", ["org/aspian", "aspian"], true⟩ ⟨0, 7⟩).2.aspianHACBSQuota =
       0 - 1 ∧
     (admitOrg ⟨"", "Pipeline", "hacbs", "u", ["org/aspian", "aspian"], true⟩ ⟨0, 7⟩).2.bspainAppStudioQuota =
       7 ∧
     ((0 : Int) = 0 →
       (admitOrg ⟨"", "Pipeline", "hacbs", "u", ["org/aspian", "aspian"], true⟩ ⟨0, 7⟩).2.aspianHACBSQuota < 0) ∧
     ((0 : Int) < 0 →
       (admitOrg ⟨"", "Pipeline", "hacbs", "u", ["org/aspian", "aspian"], true⟩ ⟨0, 7⟩).1 = none) ∧
     ((admitName true ⟨"", "Pipeline", "hacbs", "u", ["org/aspian", "aspian"], true⟩ ⟨0, 7⟩).1 ≠ none ↔
        (0 : Int) = 0) ∧
     (admitName true ⟨"", "Pipeline", "hacbs", "u", ["org/aspian", "aspian"], true⟩ ⟨0, 7⟩).2.aspianHACBSBindQuota =
       0 - 1 ∧
     (admitName true ⟨"", "Pipeline", "hacbs", "u", ["org/aspian", "aspian"], true⟩ ⟨0, 7⟩).2.bspainAppStudioBindQuota =
       7 ∧
     ((0 : Int) = 0 →
       (admitName true ⟨"", "Pipeline", "hacbs", "u", ["org/aspian", "aspian"], true⟩ ⟨0, 7⟩).2.aspianHACBSBindQuota < 0) ∧
     ((0 : Int) < 0 →
       (admitName true ⟨"", "Pipeline", "hacbs", "u", ["org/aspian", "aspian"], true⟩ ⟨0, 7⟩).1 = none)) :=
  C3_fixed_counter_deny_iff_zero
    ⟨"", "Pipeline", "hacbs", "u", ["org/aspian", "aspian"], true⟩ ⟨0, 7⟩ ⟨0, 7⟩
    rfl rfl (by decide) rfl (by decide) rfl

/-- C4: in the entitlement-based variant, a matching request (`org/aspian`
member creating kind `Pipeline`) whose tenant has a matching entitlement
reaches `entitlement.Spec.QuotaItems[0]` with no emptiness check: whenever
the first indexed entitlement has an empty `QuotaItems` list, the handler
hits the out-of-range branch of the total embedding (the Go panic). -/
theorem C4_empty_quotaItems_hits_panic_branch (index : String → List Entitlement)
    (a : Attributes) (s : EntState) (rest : List Entitlement)
    (hsub : a.subresource = "") (hobj : a.objectIsMetaV1 = true)
    (hga : isPresentInArray "org/aspian" a.groups = true) (hk : a.kind = "Pipeline")
    (horg : getTenantId a.groups ≠ "")
    (hidx : index ("root:" ++ getTenantId a.groups) = ⟨[]⟩ :: rest) :
    admitEnt index a s = (EntOutcome.panicIndex, s) := by
  simp [admitEnt, admitEntLoop, admitEntAspian, hsub, hobj, hga, hk, horg, hidx]

/-- C4 witness: concrete request on which the empty-`QuotaItems` index
access is reached. -/
theorem C4_witness :
    admitEnt (fun _ => [⟨[]⟩]) ⟨"", "Pipeline", "x", "u", ["org/aspian"], true⟩ initEntState =
      (EntOutcome.panicIndex, initEntState) :=
  C4_empty_quotaItems_hits_panic_branch (fun _ => [⟨[]⟩])
    ⟨"", "Pipeline", "x", "u", ["org/aspian"], true⟩ initEntState []
    rfl rfl (by decide) rfl (by decide) rfl

/-- C5: the sync-intent label the e2e test stamps on synced objects is
exactly the spec's `state.<domain>/<target-key>` pattern at domain
`workload.kcp.dev` with value `Sync`, and every downstream mirror produced
by the modelled Sync Agent carries the spec's provenance label
`internal.<domain>/cluster=<target-key>`, which rendered as a selector is
the literal the test lists mirrors with. -/
theorem C5_label_conventions (k : String) (ups : List UpstreamObj) (m : MirrorObj)
    (hm : m ∈ syncDownstream k ups) :
    specProvenanceLabel "workload.kcp.dev" k ∈ m.labels ∧
    testServiceLabels k = [(specStateLabelKey "workload.kcp.dev" k, "Sync")] ∧
    testDownstreamSelector k = selectorOfLabel (specProvenanceLabel "workload.kcp.dev" k) := by
  rcases List.mem_map.1 hm with ⟨o, _, rfl⟩
  refine ⟨?_, rfl, rfl⟩
  show provenanceLabel k ∈ (mirrorOf k o).labels
  simp [mirrorOf]

/-- C5 witness: the conventions at a concrete target key and a concrete
synced object. -/
theorem C5_witness :
    specProvenanceLabel "workload.kcp.dev" "k1" ∈
      (mirrorOf "k1" ⟨"w", "first", testServiceLabels "k1"⟩).labels ∧
    testServiceLabels "k1" = [(specStateLabelKey "workload.kcp.dev" "k1", "Sync")] ∧
    testDownstreamSelector "k1" = selectorOfLabel (specProvenanceLabel "workload.kcp.dev" "k1") :=
  C5_label_conventions "k1" [⟨"w", "first", testServiceLabels "k1"⟩]
    (mirrorOf "k1" ⟨"w", "first", testServiceLabels "k1"⟩) (by decide)

/-- C6: after any nonempty sequence of registry mutations the Location's
published `AvailableInstances` equals the number of ready targets
currently matching its selector (the level-triggered resolver is never
stale past the reconcile that follows a mutation). -/
theorem C6_available_instances_matches_ready_count (l : Location)
    (evs : List RegistryEvent) (h : evs ≠ []) :
    (resolverRun l evs).status =
      some (readyMatching (resolverRun l evs).targets l).length :=
  resolverFold_status l evs { targets := [], status := none } h

/-- C6 witness: registering a single ready matching sync target makes the
Location's `AvailableInstances` present and equal to 1. -/
theorem C6_witness :
    (resolverRun ⟨"us-east1", []⟩ [RegistryEvent.register ⟨"synctarget-1", true, []⟩]).status =
      some 1 :=
  C6_available_instances_matches_ready_count ⟨"us-east1", []⟩
    [RegistryEvent.register ⟨"synctarget-1", true, []⟩] (by decide)

/-- C7: with a workspace bound to a Location that has one available
instance, a Service named `first` carrying the Sync intent for the target
key is mirrored downstream as exactly one object named `first` tagged with
the provenance label, and the namespace is stamped with the placement
annotation. -/
theorem C7_first_service_mirrored (k w : String) (ns : WorkNamespace) :
    syncDownstream k [⟨w, "first", testServiceLabels k⟩] =
      [⟨"first", w, testServiceLabels k ++ [provenanceLabel k]⟩] ∧
    provenanceLabel k ∈ (mirrorOf k ⟨w, "first", testServiceLabels k⟩).labels ∧
    (stampNamespace (bindPhase 1) ns).placementAnnotated = true := by
  refine ⟨?_, ?_, rfl⟩
  · simp [syncDownstream, hasSyncIntent, testServiceLabels, mirrorOf]
  · simp [mirrorOf]

/-- C8: two workspaces bound to the same Location, each creating one
Service with the Sync intent for the same target key, are mirrored
independently: the downstream holds exactly the mirrors named `first` and
`second`, each recording its own source workspace and both carrying the
shared provenance label — no cross-contamination. -/
theorem C8_two_workspaces_mirror_independently (k w1 w2 : String) :
    syncDownstream k [⟨w1, "first", testServiceLabels k⟩, ⟨w2, "second", testServiceLabels k⟩] =
      [mirrorOf k ⟨w1, "first", testServiceLabels k⟩,
       mirrorOf k ⟨w2, "second", testServiceLabels k⟩] ∧
    (mirrorOf k ⟨w1, "first", testServiceLabels k⟩).name = "first" ∧
    (mirrorOf k ⟨w1, "first", testServiceLabels k⟩).sourceWorkspace = w1 ∧
    (mirrorOf k ⟨w2, "second", testServiceLabels k⟩).name = "second" ∧
    (mirrorOf k ⟨w2, "second", testServiceLabels k⟩).sourceWorkspace = w2 ∧
    provenanceLabel k ∈ (mirrorOf k ⟨w1, "first", testServiceLabels k⟩).labels ∧
    provenanceLabel k ∈ (mirrorOf k ⟨w2, "second", testServiceLabels k⟩).labels := by
  refine ⟨?_, rfl, rfl, rfl, rfl, ?_, ?_⟩ <;>
    simp [syncDownstream, hasSyncIntent, testServiceLabels, mirrorOf]

/-- C9: in the label-based state machine, every transition out of
`Removing` into `absent` happens only with the downstream mirror already
gone (and still gone), and no transition leaves `Sync` directly for
`absent` — deletion is two-phase, `Sync→Removing→absent`, with the mirror
absent before the intent key is cleared. -/
theorem C9_two_phase_deletion (s s' : PairState) (h : SyncStep s s') :
    (s.intent = SyncIntent.removing → s'.intent = SyncIntent.absent →
      s.mirror = false ∧ s'.mirror = false) ∧
    (s.intent = SyncIntent.sync → s'.intent ≠ SyncIntent.absent) := by
  cases h <;> simp

/-- C9 witness: the clearing transition at the concrete pair states has
the mirror absent on both sides. -/
theorem C9_witness :
    (PairState.mk SyncIntent.removing false).mirror = false ∧
    (PairState.mk SyncIntent.absent false).mirror = false :=
  (C9_two_phase_deletion ⟨SyncIntent.removing, false⟩ ⟨SyncIntent.absent, false⟩
    SyncStep.confirmAbsent).1 rfl rfl

/-- C10: a request with a non-empty subresource is admitted immediately by
all three `Admit` variants and leaves every quota counter exactly as it
was. -/
theorem C10_subresource_skips_quota (ctxOk : Bool) (index : String → List Entitlement)
    (a : Attributes) (sE : EntState) (sN : NameState) (sO : OrgState)
    (h : a.subresource ≠ "") :
    admitEnt index a sE = (EntOutcome.ok, sE) ∧
    admitName ctxOk a sN = (none, sN) ∧
    admitOrg a sO = (none, sO) := by
  refine ⟨?_, ?_, ?_⟩ <;> simp [admitEnt, admitName, admitOrg, h]

/-- C10 witness: a status update is admitted by all three variants with
the counters untouched. -/
theorem C10_witness :
    admitEnt (fun _ => []) ⟨"status", "Pipeline", "hacbs", "u", ["org/aspian"], true⟩ initEntState =
      (EntOutcome.ok, initEntState) ∧
    admitName true ⟨"status", "Pipeline", "hacbs", "u", ["org/aspian"], true⟩ initNameState =
      (none, initNameState) ∧
    admitOrg ⟨"status", "Pipeline", "hacbs", "u", ["org/aspian"], true⟩ initOrgState =
      (none, initOrgState) :=
  C10_subresource_skips_quota true (fun _ => [])
    ⟨"status", "Pipeline", "hacbs", "u", ["org/aspian"], true⟩
    initEntState initNameState initOrgState (by decide)
